import Mathlib

/-!
Verification of the UBX protocol engine of the rpi_m8q_gui repository.

The development shallowly embeds the protocol-handling C code
(src/gps_setup.c, src/guiTest/checksum_maker.c, src/main.c, src/gui_setup.c)
into Lean.  Bytes are natural numbers; the SPI byte stream is a finite
`List Nat`, and every blocking read loop is embedded as structural
recursion over the remaining stream (a stream that runs out models a
transport that never delivers the awaited bytes).  Machine integers are
`Nat` with explicit `% 256` / `% 65536` where the C types wrap.
-/

/-- Running two-byte UBX checksum, from `calculateUBXChecksum` in
src/guiTest/checksum_maker.c: `ck_a` and `ck_b` are `uint8_t`
accumulators starting at 0; for each byte `b`, `ck_a += b` and
`ck_b += ck_a`, both wrapping mod 256. -/
def calculateUBXChecksum (msg : List Nat) : Nat × Nat :=
  msg.foldl (fun ck b => ((ck.1 + b) % 256, (ck.2 + (ck.1 + b) % 256) % 256)) (0, 0)

/-- The `cfg_ubx_only` frame sent by `setProtocol_UBX` (src/gps_setup.c). -/
def cfg_ubx_only : List Nat :=
  [0xb5, 0x62, 0x06, 0x00, 0x14, 0x00, 0x04, 0x00, 0x00, 0x00, 0x00, 0x32, 0x00, 0x00, 0x00,
   0x00, 0x00, 0x00, 0x01, 0x00, 0x01, 0x00, 0x00, 0x00, 0x00, 0x00, 0x52, 0x94]

/-- The `config_navpt_on` frame sent by `enable_navPVT` (src/gps_setup.c). -/
def config_navpt_on : List Nat :=
  [0xb5, 0x62, 0x06, 0x01, 0x08, 0x00, 0x01, 0x07, 0x00, 0x00, 0x00, 0x00, 0x01, 0x00, 0x18, 0xde]

/-- The `config_rate_4x2hz` frame sent by `setRate_4x2` (src/gps_setup.c). -/
def config_rate_4x2hz : List Nat :=
  [0xb5, 0x62, 0x06, 0x08, 0x06, 0x00, 0xfa, 0x00, 0x02, 0x00, 0x00, 0x00, 0x10, 0x98]

/-- The `config_rate_2x1hz` frame sent by `setRate_2x1` (src/gps_setup.c). -/
def config_rate_2x1hz : List Nat :=
  [0xb5, 0x62, 0x06, 0x08, 0x06, 0x00, 0xF4, 0x01, 0x02, 0x00, 0x00, 0x00, 0x0B, 0x79]

/-- The `pollNavPVT` frame sent by the function of the same name (src/gps_setup.c). -/
def pollNavPVT : List Nat :=
  [0xB5, 0x62, 0x06, 0x01, 0x02, 0x00, 0x01, 0x07, 0x11, 0x3A]

/-- The `pollRate` frame sent by the function of the same name (src/gps_setup.c). -/
def pollRate : List Nat :=
  [0xB5, 0x62, 0x06, 0x08, 0x00, 0x00, 0x0E, 0x30]

/-- The bytes of a complete outbound frame that the checksum covers:
everything after the two sync bytes and before the two trailing
checksum bytes, i.e. class, id, the two length bytes and the payload. -/
def frameBody (f : List Nat) : List Nat :=
  ((f.drop 2).dropLast).dropLast

/-- The two trailing checksum bytes of a complete outbound frame. -/
def frameCk (f : List Nat) : Nat × Nat :=
  (f.getD (f.length - 2) 0, f.getD (f.length - 1) 0)

/-- Header-seeking loop shared by `readUBX`, `readPollResponse` and
`readACKResponse` (src/gps_setup.c): a `uint16_t` register starts at
0xFFFF and is updated as `header = (header << 8) | byte` for each byte
read, until it equals 0xB562.  Returns the stream after the sync
pattern, or `none` if the stream ends first (the C loop would block). -/
def seekSyncReg : Nat → List Nat → Option (List Nat)
  | _, [] => none
  | h, b :: rest =>
    let h' := ((h <<< 8) ||| b) % 65536
    if h' = 0xB562 then some rest else seekSyncReg h' rest

/-- The `incomingUBX` struct of src/gps_setup.h, restricted to the fields
the reading code assigns (`sync1`/`sync2` are never written). -/
structure incomingUBX where
  msgCls : Nat
  msgID : Nat
  msgLen : Nat
  payload : List Nat
  ck_a : Nat
  ck_b : Nat
deriving DecidableEq, Repr

/-- The frame reader `readUBX` of src/gps_setup.c (the envelope logic of
`readPollResponse` is byte-for-byte the same): scan for the sync
pattern, read class, id, the two little-endian length bytes
(`msgLen = lenL; msgLen |= lenH << 8`), then exactly `msgLen` payload
bytes and two checksum bytes.  The checksum bytes are stored but never
compared.  Returns the populated struct and the unread remainder of the
stream; `none` models blocking on a stream with too few bytes. -/
def readUBX (s : List Nat) : Option (incomingUBX × List Nat) :=
  match seekSyncReg 0xFFFF s with
  | some (cls :: id :: lenL :: lenH :: rest) =>
    let len := lenL ||| (lenH <<< 8)
    match rest.drop len with
    | ca :: cb :: r =>
      some ({ msgCls := cls, msgID := id, msgLen := len,
              payload := rest.take len, ck_a := ca, ck_b := cb }, r)
    | _ => none
  | _ => none

/-- Successive invocations of `readUBX` on a stream, as performed once
per iteration by the `startGPS` loop of src/gps_setup.c. -/
def readUBXStream : Nat → List Nat → List incomingUBX
  | 0, _ => []
  | n + 1, s =>
    match readUBX s with
    | none => []
    | some (f, r) => f :: readUBXStream n r

/-- Checksum validation of a received frame.  Modelled from the spec:
src/ contains no checksum check on the receive path, so `validate` of
spec section 4.1 is recreated here from `calculateUBXChecksum`:
recompute over class, id, the two little-endian length bytes and the
payload, and compare with the trailing checksum bytes. -/
def validChecksum (f : incomingUBX) : Bool :=
  calculateUBXChecksum
      (f.msgCls :: f.msgID :: (f.msgLen % 256) :: (f.msgLen / 256) :: f.payload)
    == (f.ck_a, f.ck_b)

/-- One step of the 16-bit sync register: shifting in a byte `b < 256`
keeps the previous byte in the high half and `b` in the low half. -/
lemma regStep_char (h b : Nat) (hb : b < 256) :
    ((h <<< 8) ||| b) % 65536 = h % 256 * 256 + b := by
  have h28 : (2 : Nat) ^ 8 = 256 := by norm_num
  have hb' : b < 2 ^ 8 := by rw [h28]; exact hb
  have hor : (h <<< 8) ||| b = 256 * h + b := by
    calc (h <<< 8) ||| b = 2 ^ 8 * h ||| b := by rw [Nat.shiftLeft_eq, Nat.mul_comm]
    _ = 2 ^ 8 * h + b := (Nat.mul_add_lt_is_or hb' h).symm
    _ = 256 * h + b := by rw [h28]
  rw [hor]
  omega

/-- True when the byte sequence, viewed with `prev` as the byte read just
before it, contains no two consecutive bytes equal to 0xB5 0x62. -/
def noSyncStraddle : Nat → List Nat → Bool
  | _, [] => true
  | prev, b :: rest => (!(prev == 0xB5 && b == 0x62)) && noSyncStraddle b rest

/-- The sync scan consumes sync-free noise byte-by-byte and stops exactly
after the first 0xB5 0x62 pair.  The register `h` carries the previously
read byte in its low half, which `noSyncStraddle` accounts for. -/
lemma seekSyncReg_skip :
    ∀ (noise : List Nat) (h : Nat) (tail : List Nat),
      (∀ b ∈ noise, b < 256) →
      noSyncStraddle (h % 256) noise = true →
      seekSyncReg h (noise ++ 0xB5 :: 0x62 :: tail) = some tail := by
  intro noise
  induction noise with
  | nil =>
    intro h tail _ _
    simp only [List.nil_append, seekSyncReg]
    rw [regStep_char h 0xB5 (by norm_num)]
    rw [if_neg (by omega)]
    rw [regStep_char _ 0x62 (by norm_num)]
    rw [if_pos (by omega)]
  | cons b noise ih =>
    intro h tail hb hns
    have hblt : b < 256 := hb b (List.mem_cons_self b noise)
    simp only [noSyncStraddle, Bool.and_eq_true, Bool.not_eq_true',
      Bool.and_eq_false_imp, beq_iff_eq] at hns
    obtain ⟨h1, h2⟩ := hns
    simp only [List.cons_append, seekSyncReg]
    rw [regStep_char h b hblt]
    rw [if_neg (by
      intro hcontra
      have hcls : h % 256 = 0xB5 ∧ b = 0x62 := by omega
      exact absurd (h1 hcls.1) (by simp [hcls.2]))]
    have hmod : (h % 256 * 256 + b) % 256 = b := by omega
    exact ih (h % 256 * 256 + b) tail (fun x hx => hb x (List.mem_cons_of_mem _ hx))
      (by rw [hmod]; exact h2)

/-- C3: on any stream made of sync-free leading noise, the sync pattern
0xB5 0x62, class, id, a two-byte little-endian length, exactly `length`
payload bytes and two checksum bytes, one invocation of the frame
reader skips the noise, begins envelope parsing right after the first
sync pair, and yields exactly that one frame, leaving the remainder of
the stream unread. -/
theorem frame_reader_parses_after_noise
    (noise : List Nat) (cls id lenL lenH ca cb : Nat) (payload rest : List Nat)
    (hnb : ∀ b ∈ noise, b < 256)
    (hns : noSyncStraddle 0xFF noise = true)
    (hlen : payload.length = lenL ||| (lenH <<< 8)) :
    readUBX (noise ++ 0xB5 :: 0x62 :: cls :: id :: lenL :: lenH :: (payload ++ ca :: cb :: rest))
      = some ({ msgCls := cls, msgID := id, msgLen := lenL ||| (lenH <<< 8),
                payload := payload, ck_a := ca, ck_b := cb }, rest) := by
  unfold readUBX
  rw [seekSyncReg_skip noise 0xFFFF _ hnb
    (by rw [show (0xFFFF : Nat) % 256 = 0xFF by norm_num]; exact hns)]
  dsimp only
  rw [← hlen, List.drop_left, List.take_left]

/-- Witness for C3 at a concrete stream: three noise bytes, then a
class 01 id 07 frame with a two-byte payload, then one trailing byte. -/
theorem frame_reader_parses_after_noise_witness :
    readUBX ([0x00, 0xB5, 0x13] ++ 0xB5 :: 0x62 :: 0x01 :: 0x07 :: 0x02 :: 0x00 ::
        ([0xAA, 0xBB] ++ 0x6F :: 0x40 :: [0x99]))
      = some ({ msgCls := 0x01, msgID := 0x07, msgLen := 0x02 ||| (0x00 <<< 8),
                payload := [0xAA, 0xBB], ck_a := 0x6F, ck_b := 0x40 }, [0x99]) :=
  frame_reader_parses_after_noise [0x00, 0xB5, 0x13] 0x01 0x07 0x02 0x00 0x6F 0x40
    [0xAA, 0xBB] [0x99] (by decide) (by decide) (by decide)

/-- A valid NAV-PVT-class test frame with payload AA BB. -/
def validFrame1 : List Nat := [0xB5, 0x62, 0x01, 0x07, 0x02, 0x00, 0xAA, 0xBB, 0x6F, 0x40]

/-- The same frame with its two checksum bytes flipped, making the
stored checksum disagree with the recomputed one. -/
def corruptedFrame : List Nat := [0xB5, 0x62, 0x01, 0x07, 0x02, 0x00, 0xAA, 0xBB, 0x40, 0x6F]

/-- A second valid test frame with payload 11 22. -/
def validFrame3 : List Nat := [0xB5, 0x62, 0x01, 0x07, 0x02, 0x00, 0x11, 0x22, 0x3D, 0x75]

/-- C2 (refuting the claimed behavior): on a stream holding a valid
frame, then a frame whose checksum bytes are flipped, then a valid
frame, three invocations of `readUBX` deliver all three frames — the
middle frame fails checksum validation yet is delivered to the caller
exactly like the others, because the read path never compares the
recomputed checksum with the trailing bytes. -/
theorem corrupted_frame_is_delivered :
    readUBXStream 3 (validFrame1 ++ corruptedFrame ++ validFrame3)
      = [{ msgCls := 1, msgID := 7, msgLen := 2, payload := [0xAA, 0xBB], ck_a := 0x6F, ck_b := 0x40 },
         { msgCls := 1, msgID := 7, msgLen := 2, payload := [0xAA, 0xBB], ck_a := 0x40, ck_b := 0x6F },
         { msgCls := 1, msgID := 7, msgLen := 2, payload := [0x11, 0x22], ck_a := 0x3D, ck_b := 0x75 }]
    ∧ validChecksum { msgCls := 1, msgID := 7, msgLen := 2, payload := [0xAA, 0xBB],
                      ck_a := 0x40, ck_b := 0x6F } = false
    ∧ validChecksum { msgCls := 1, msgID := 7, msgLen := 2, payload := [0xAA, 0xBB],
                      ck_a := 0x6F, ck_b := 0x40 } = true
    ∧ validChecksum { msgCls := 1, msgID := 7, msgLen := 2, payload := [0x11, 0x22],
                      ck_a := 0x3D, ck_b := 0x75 } = true := by
  decide

/-- The CFG-RATE payload decoder `checkRateSettings` (src/gps_setup.c):
reads payload[0..5] as three little-endian 16-bit values measRate,
navRate and timeRef.  The C function receives a bare `uint8_t` pointer
with no length, embedded here as the access function `payload`. -/
def checkRateSettings (payload : Nat → Nat) : Nat × Nat × Nat :=
  (payload 0 ||| (payload 1 <<< 8),
   payload 2 ||| (payload 3 <<< 8),
   payload 4 ||| (payload 5 <<< 8))

/-- The CFG-MSG payload decoder `checkConfigMsgSettings`
(src/gps_setup.c): reads payload[0], payload[1] and payload[6]
(msgClass, msgID, rateSPI). -/
def checkConfigMsgSettings (payload : Nat → Nat) : Nat × Nat × Nat :=
  (payload 0, payload 1, payload 6)

/-- Memory as seen through the payload pointer `readPollResponse` hands
to the decoders: the buffer is a stack array of exactly `len` bytes, so
indices below `len` read the received payload while larger indices read
whatever memory happens to follow the array (`mem`). -/
def payloadMem (payload : List Nat) (len : Nat) (mem : Nat → Nat) : Nat → Nat :=
  fun i => if i < len then payload.getD i 0 else mem i

/-- Outcome of one `readPollResponse` dispatch. -/
inductive PollResult where
  | msgCfg : Nat × Nat × Nat → PollResult
  | rate : Nat × Nat × Nat → PollResult
  | unrecognized : Nat → Nat → PollResult
deriving DecidableEq, Repr

/-- `readPollResponse` (src/gps_setup.c): read one frame with the same
envelope logic as `readUBX` into a stack buffer of exactly `msgLen`
bytes, then dispatch on (class, id): (06,01) to
`checkConfigMsgSettings`, (06,08) to `checkRateSettings`, anything else
is only reported.  `mem` models the memory beyond the stack buffer. -/
def readPollResponse (mem : Nat → Nat) (s : List Nat) : Option PollResult :=
  match readUBX s with
  | none => none
  | some (f, _) =>
    let p := payloadMem f.payload f.msgLen mem
    if f.msgCls = 0x06 ∧ f.msgID = 0x01 then some (.msgCfg (checkConfigMsgSettings p))
    else if f.msgCls = 0x06 ∧ f.msgID = 0x08 then some (.rate (checkRateSettings p))
    else some (.unrecognized f.msgCls f.msgID)

/-- C7: decoding the class 06 id 08 payload FA 00 02 00 00 00 of the
encoded 4-measurement/2-solution rate command through the rate-config
parser reproduces measurement rate 250 ms, navigation rate 2 and time
reference 0 (UTC). -/
theorem rate_roundtrip_4x2 :
    readPollResponse (fun _ => 0) config_rate_4x2hz = some (.rate (250, 2, 0)) := by
  decide

/-- C8 (refuting the claimed behavior): the CFG-RATE poll echo
B5 62 06 08 00 00 0E 30 carries a zero-length payload, is dispatched by
`readPollResponse` to `checkRateSettings`, and the decoded result then
depends on the memory lying beyond the zero-byte payload buffer — the
decoder reads indices 0 to 5 unconditionally, past the supplied payload
bounds. -/
theorem rate_decoder_reads_past_payload :
    (readUBX pollRate).map (fun p => (p.1.msgCls, p.1.msgID, p.1.msgLen))
        = some (0x06, 0x08, 0)
    ∧ readPollResponse (fun _ => 0) pollRate ≠ readPollResponse (fun _ => 1) pollRate := by
  decide

/-- The fields `readACKResponse` (src/gps_setup.c) reads for one ACK or
NACK response: envelope bytes, the two payload bytes (initialized to
the 0xFF placeholders) and the two checksum bytes. -/
structure ackResponse where
  cls : Nat
  id : Nat
  lenL : Nat
  lenH : Nat
  payload0 : Nat
  payload1 : Nat
  ck_a : Nat
  ck_b : Nat
deriving DecidableEq, Repr

/-- `readACKResponse` (src/gps_setup.c): scan for sync, read class, id
and the two length bytes; read the two payload bytes only when
`lenL | (lenH << 8)` equals 2, otherwise keep the 0xFF placeholders;
then always read two checksum bytes.  Returns the populated fields and
the unread remainder of the stream. -/
def readACKResponse (s : List Nat) : Option (ackResponse × List Nat) :=
  match seekSyncReg 0xFFFF s with
  | some (cls :: id :: lenL :: lenH :: rest) =>
    if lenL ||| (lenH <<< 8) = 2 then
      match rest with
      | p0 :: p1 :: ca :: cb :: r =>
        some ({ cls := cls, id := id, lenL := lenL, lenH := lenH,
                payload0 := p0, payload1 := p1, ck_a := ca, ck_b := cb }, r)
      | _ => none
    else
      match rest with
      | ca :: cb :: r =>
        some ({ cls := cls, id := id, lenL := lenL, lenH := lenH,
                payload0 := 0xFF, payload1 := 0xFF, ck_a := ca, ck_b := cb }, r)
      | _ => none
  | _ => none

/-- The classification `readACKResponse` reports: ACK for class 05 id
01, NACK for class 05 id 00, otherwise unexpected; ACK and NACK echo
the two payload bytes as the acknowledged class and id. -/
inductive AckStatus where
  | ack : Nat → Nat → AckStatus
  | nack : Nat → Nat → AckStatus
  | unexpected : Nat → Nat → AckStatus
deriving DecidableEq, Repr

/-- The reporting branch at the end of `readACKResponse`. -/
def ackClassify (a : ackResponse) : AckStatus :=
  if a.cls = 0x05 ∧ a.id = 0x01 then .ack a.payload0 a.payload1
  else if a.cls = 0x05 ∧ a.id = 0x00 then .nack a.payload0 a.payload1
  else .unexpected a.cls a.id

/-- C10: when the 16-bit little-endian length field differs from 2, the
ACK reader leaves its payload at the 0xFF 0xFF placeholders, consumes
exactly the next two stream bytes as checksum, and classifies the
response from class and id with the placeholder bytes as the echoed
class and id. -/
theorem ack_reader_short_length
    (cls id lenL lenH ca cb : Nat) (r : List Nat)
    (hlen : lenL ||| (lenH <<< 8) ≠ 2) :
    readACKResponse (0xB5 :: 0x62 :: cls :: id :: lenL :: lenH :: ca :: cb :: r)
      = some ({ cls := cls, id := id, lenL := lenL, lenH := lenH,
                payload0 := 0xFF, payload1 := 0xFF, ck_a := ca, ck_b := cb }, r)
    ∧ ackClassify { cls := cls, id := id, lenL := lenL, lenH := lenH,
                    payload0 := 0xFF, payload1 := 0xFF, ck_a := ca, ck_b := cb }
      = (if cls = 0x05 ∧ id = 0x01 then .ack 0xFF 0xFF
         else if cls = 0x05 ∧ id = 0x00 then .nack 0xFF 0xFF
         else .unexpected cls id) := by
  constructor
  · have hsync := seekSyncReg_skip [] 0xFFFF (cls :: id :: lenL :: lenH :: ca :: cb :: r)
      (by simp) (by decide)
    rw [List.nil_append] at hsync
    unfold readACKResponse
    rw [hsync]
    dsimp only
    rw [if_neg hlen]
  · rfl

/-- Witness for C10: an ACK frame whose length field is 0 is reported as
ACK echoing 0xFF 0xFF, with the two bytes after the length consumed as
checksum and the rest of the stream untouched. -/
theorem ack_reader_short_length_witness :
    ((0x00 : Nat) ||| (0x00 <<< 8) ≠ 2)
    ∧ readACKResponse (0xB5 :: 0x62 :: 0x05 :: 0x01 :: 0x00 :: 0x00 :: 0x07 :: 0x08 :: [0x42])
        = some ({ cls := 0x05, id := 0x01, lenL := 0x00, lenH := 0x00,
                  payload0 := 0xFF, payload1 := 0xFF, ck_a := 0x07, ck_b := 0x08 }, [0x42]) :=
  ⟨by decide, (ack_reader_short_length 0x05 0x01 0x00 0x00 0x07 0x08 [0x42] (by decide)).1⟩

/-- The `sendConfig` startup sequencer of src/main.c, as the trace of
commands it sends and the ACK/NACK classifications it observes: it
sends `setProtocol_UBX`, reads one response, sends `setRate_2x1`, reads
one response, sends `enable_navPVT` and reads one response.  A `none`
from the reader models blocking forever, cutting the trace short. -/
def sendConfig (s : List Nat) : List (List Nat) × List AckStatus :=
  match readACKResponse s with
  | none => ([cfg_ubx_only], [])
  | some (a1, s1) =>
    match readACKResponse s1 with
    | none => ([cfg_ubx_only, config_rate_2x1hz], [ackClassify a1])
    | some (a2, s2) =>
      match readACKResponse s2 with
      | none => ([cfg_ubx_only, config_rate_2x1hz, config_navpt_on],
                 [ackClassify a1, ackClassify a2])
      | some (a3, _) =>
        ([cfg_ubx_only, config_rate_2x1hz, config_navpt_on],
         [ackClassify a1, ackClassify a2, ackClassify a3])

/-- A NACK response frame echoing class 06 id 00 (the protocol-filter
command), with its correct checksum bytes. -/
def nackEcho0600 : List Nat := [0xB5, 0x62, 0x05, 0x00, 0x02, 0x00, 0x06, 0x00, 0x0D, 0x32]

/-- C6 (refuting the claimed behavior): fed three NACK responses echoing
(06,00), the startup sequencer sends the protocol-filter command
exactly once — no retry — observes the NACK, and still sends both
remaining configuration commands instead of aborting. -/
theorem sendConfig_ignores_nack :
    sendConfig (nackEcho0600 ++ (nackEcho0600 ++ nackEcho0600))
      = ([cfg_ubx_only, config_rate_2x1hz, config_navpt_on],
         [.nack 0x06 0x00, .nack 0x06 0x00, .nack 0x06 0x00])
    ∧ (sendConfig (nackEcho0600 ++ (nackEcho0600 ++ nackEcho0600))).1.count cfg_ubx_only = 1 := by
  decide

/-- C4: the checksum computation starts both accumulators at 0 and folds
ckA = (ckA + b) mod 256, ckB = (ckB + ckA) mod 256 over the class, id,
length and payload bytes in order; on the bytes
06 08 06 00 FA 00 02 00 00 00 it yields ckA = 0x10 and ckB = 0x98. -/
theorem checksum_step_and_value :
    (∀ (bs : List Nat) (b : Nat),
      calculateUBXChecksum (bs ++ [b])
        = (((calculateUBXChecksum bs).1 + b) % 256,
           ((calculateUBXChecksum bs).2 + ((calculateUBXChecksum bs).1 + b) % 256) % 256))
    ∧ calculateUBXChecksum [0x06, 0x08, 0x06, 0x00, 0xFA, 0x00, 0x02, 0x00, 0x00, 0x00]
        = (0x10, 0x98) := by
  constructor
  · intro bs b
    simp [calculateUBXChecksum, List.foldl_append]
  · decide

/-- C5: each fixed outbound command frame baked into src/gps_setup.c
carries, as its two trailing bytes, exactly the running checksum of its
class, id, length and payload bytes. -/
theorem baked_checksums_match :
    calculateUBXChecksum (frameBody cfg_ubx_only) = frameCk cfg_ubx_only
    ∧ calculateUBXChecksum (frameBody config_navpt_on) = frameCk config_navpt_on
    ∧ calculateUBXChecksum (frameBody config_rate_4x2hz) = frameCk config_rate_4x2hz
    ∧ calculateUBXChecksum (frameBody config_rate_2x1hz) = frameCk config_rate_2x1hz
    ∧ calculateUBXChecksum (frameBody pollNavPVT) = frameCk pollNavPVT
    ∧ calculateUBXChecksum (frameBody pollRate) = frameCk pollRate := by
  decide

/-- Buffer bookkeeping of the `startGPS` producer thread
(src/gps_setup.c).  Slots are named by a Bool: `true` is the front
buffer, `false` the back buffer.  `useFrontBuffer` is the atomic flag,
`currentIsFront` the slot `currentBuffer` points at; both start as
front. -/
structure gpsProdState where
  useFrontBuffer : Bool
  currentIsFront : Bool
deriving DecidableEq, Repr

/-- One iteration of the `startGPS` loop: `readUBX` writes into
`currentBuffer`; then the code swaps `currentBuffer` to the other slot
and toggles `useFrontBuffer`; finally it schedules the GUI consumer
with the value of `useFrontBuffer` read after the toggle.  Returns the
new state, the slot written this iteration, and the flag published to
the consumer. -/
def startGPSIter (s : gpsProdState) : gpsProdState × Bool × Bool :=
  let wrote := s.currentIsFront
  if s.useFrontBuffer then
    ({ useFrontBuffer := false, currentIsFront := false }, wrote, false)
  else
    ({ useFrontBuffer := true, currentIsFront := true }, wrote, true)

/-- The producer state before iteration `n` (iterations counted from 0;
the initial state has both designations at the front buffer). -/
def gpsProdRun : Nat → gpsProdState
  | 0 => { useFrontBuffer := true, currentIsFront := true }
  | n + 1 => (startGPSIter (gpsProdRun n)).1

/-- The slot `readUBX` writes during iteration `n`. -/
def prodWrites (n : Nat) : Bool :=
  (startGPSIter (gpsProdRun n)).2.1

/-- The flag value passed to the GUI consumer at the end of iteration
`n`. -/
def prodPublish (n : Nat) : Bool :=
  (startGPSIter (gpsProdRun n)).2.2

/-- The slot `updateGPSLabels` (src/gui_setup.c) reads for a given flag:
the front buffer when the flag is set, the back buffer otherwise. -/
def updateGPSLabelsSlot (useFirstBuffer : Bool) : Bool :=
  if useFirstBuffer then true else false

/-- Closed form of the producer state: both designations flip every
iteration. -/
lemma gpsProdRun_closed (n : Nat) :
    gpsProdRun n = { useFrontBuffer := (n % 2 == 0), currentIsFront := (n % 2 == 0) } := by
  induction n with
  | zero => rfl
  | succ n ih =>
    show (startGPSIter (gpsProdRun n)).1 = _
    rw [ih]
    by_cases h : n % 2 = 0
    · have h2 : (n + 1) % 2 = 1 := by omega
      simp [startGPSIter, h, h2]
    · have h1 : n % 2 = 1 := by omega
      have h2 : (n + 1) % 2 = 0 := by omega
      simp [startGPSIter, h1, h2]

/-- C1 (refuting the claimed invariant): after every iteration `n`, the
flag the producer publishes designates the slot it writes during the
NEXT iteration, never the slot whose write just completed.  The
consumer scheduled after iteration `n` is therefore directed at the
very slot the producer overwrites in iteration `n + 1` (for `n = 0`, at
a slot that has never been written at all). -/
theorem producer_publishes_next_write_slot (n : Nat) :
    updateGPSLabelsSlot (prodPublish n) = prodWrites (n + 1)
    ∧ updateGPSLabelsSlot (prodPublish n) ≠ prodWrites n := by
  have hn := gpsProdRun_closed n
  have hn1 := gpsProdRun_closed (n + 1)
  by_cases h : n % 2 = 0
  · have h2 : (n + 1) % 2 = 1 := by omega
    simp [prodWrites, prodPublish, updateGPSLabelsSlot, startGPSIter, hn, hn1, h, h2]
  · have h1 : n % 2 = 1 := by omega
    have h2 : (n + 1) % 2 = 0 := by omega
    simp [prodWrites, prodPublish, updateGPSLabelsSlot, startGPSIter, hn, hn1, h1, h2]

/-- The `while (atomic_load(gpsRunning))` loop of `startGPS`
(src/gps_setup.c): `flag i` is the value the atomic flag would deliver
at the check before iteration `i`.  The fuel argument only bounds the
embedding; the result is the number of iterations executed and the
number of flag checks performed. -/
def startGPSLoop (flag : Nat → Bool) : Nat → Nat → Nat × Nat
  | 0, i => (i, i)
  | fuel + 1, i => if flag i then startGPSLoop flag fuel (i + 1) else (i, i + 1)

/-- General bound for the producer loop: once the flag reads false from
check `m` on, at most `m` iterations run, and the number of checks is
one more than the number of iterations. -/
lemma startGPSLoop_exits :
    ∀ (fuel : Nat) (flag : Nat → Bool) (i m : Nat),
      (∀ j, m ≤ j → flag j = false) → i ≤ m → m < i + fuel →
      (startGPSLoop flag fuel i).1 ≤ m
      ∧ (startGPSLoop flag fuel i).2 = (startGPSLoop flag fuel i).1 + 1 := by
  intro fuel
  induction fuel with
  | zero => intro flag i m _ hi hlt; omega
  | succ fuel ih =>
    intro flag i m hm hi hlt
    simp only [startGPSLoop]
    by_cases h : flag i
    · rw [if_pos h]
      have hi1 : i + 1 ≤ m := by
        rcases Nat.lt_or_ge i m with hlt2 | hge
        · omega
        · exact absurd (hm i hge) (by simp [h])
      exact ih flag (i + 1) m hm hi1 (by omega)
    · rw [if_neg h]
      exact ⟨hi, rfl⟩

/-- C9: the producer loop checks the shared cancellation flag exactly
once per iteration (checks = iterations + 1, the last check being the
one that observes cancellation and exits); once the flag reads false
from check `m` onward, the loop body runs at most `m` times and the
thread function returns, so the caller can join it. -/
theorem producer_loop_exits_after_cancel
    (flag : Nat → Bool) (fuel m : Nat)
    (hm : ∀ j, m ≤ j → flag j = false) (hfuel : m < fuel) :
    (startGPSLoop flag fuel 0).1 ≤ m
    ∧ (startGPSLoop flag fuel 0).2 = (startGPSLoop flag fuel 0).1 + 1 :=
  startGPSLoop_exits fuel flag 0 m hm (Nat.zero_le m) (by omega)

/-- Witness for C9: a flag that is true only at check 0 stops the loop
after at most one iteration, with one more check than iteration. -/
theorem producer_loop_exits_after_cancel_witness :
    (startGPSLoop (fun j => j == 0) 3 0).1 ≤ 1
    ∧ (startGPSLoop (fun j => j == 0) 3 0).2
        = (startGPSLoop (fun j => j == 0) 3 0).1 + 1 :=
  producer_loop_exits_after_cancel (fun j => j == 0) 3 1
    (fun j hj => by simp only [beq_eq_false_iff_ne]; omega) (by decide)
